import Mathlib

/-!
Verification of the X-RAY tracing engine against its specification.

This file shallowly embeds the tracing SDK (`src/xray_sdk/xray.py`) and the
dashboard trace store / query surface (`src/dashboard/server.py`) in Lean 4
and settles the frozen claims about them.

Modelling conventions:
* Python runtime values are the inductive `PyVal`; JSON-representable values
  are the inductive `JSON`.  Python floats are modelled as rationals.
* Exceptions are explicit: fallible operations return `Except PyErr _` or
  `Option _` (where `none` stands for a propagated exception).
* `str(x)` may raise in Python when a custom `__str__` raises; this is
  modelled by `pyStr : PyVal → Option String`, with the fallible case carried
  by the `obj` constructor's `render` field.  The textual content of renderings
  of containers is abstracted (it is never observed by the code under claims);
  the failure structure is what matters.
* Environment-supplied data (uuid-based ids, wall-clock timestamps, elapsed
  durations) are parameters collected in `Env`.
* Wall-clock rounding: `round(x, 2)` is modelled by `round2` (nearest, ties
  up; Python uses ties-to-even, but no claim depends on tie behaviour).
-/

/-- JSON-representable values, as produced by `json.load`/stored by
`json.dump`.  Objects are insertion-ordered key/value lists. -/
inductive JSON where
  | null
  | boolV (b : Bool)
  | intV (n : Int)
  | floatV (q : ℚ)
  | str (s : String)
  | arr (xs : List JSON)
  | obj (kvs : List (String × JSON))

/-- Python runtime values as far as the tracing engine observes them.
`obj tn render` is any non-primitive object: `tn` is `type(x).__name__` and
`render` is the result of `str(x)` (`none` when `__str__` raises). -/
inductive PyVal where
  | noneV
  | boolV (b : Bool)
  | intV (n : Int)
  | floatV (q : ℚ)
  | str (s : String)
  | list (xs : List PyVal)
  | tuple (xs : List PyVal)
  | dict (kvs : List (PyVal × PyVal))
  | obj (typeName : String) (render : Option String)

/-- Python exceptions that the embedded code can raise or propagate. -/
inductive PyErr where
  /-- An exception raised by the wrapped user call, carrying `str(e)`. -/
  | raised (msg : String)
  /-- `AttributeError` from attribute access on `None`; carries the attribute
  name (`'NoneType' object has no attribute ...`). -/
  | attrNone (attr : String)
  /-- `KeyError` from a failing dict lookup. -/
  | keyError (k : String)
  /-- An exception escaping `str()` during value sanitization. -/
  | renderError
  deriving DecidableEq

/-- `str(e)`: the message recorded for a caught exception.  The exact text of
the non-user cases is abstracted; no claim observes it. -/
def pyErrMsg : PyErr → String
  | .raised msg => msg
  | .attrNone attr => "NoneType object has no attribute " ++ attr
  | .keyError k => k
  | .renderError => "render failure"

/-- `type(x).__name__` for the modelled values. -/
def typeName : PyVal → String
  | .noneV => "NoneType"
  | .boolV _ => "bool"
  | .intV _ => "int"
  | .floatV _ => "float"
  | .str _ => "str"
  | .list _ => "list"
  | .tuple _ => "tuple"
  | .dict _ => "dict"
  | .obj tn _ => tn

/-- `str(x)`.  Fails (`none`) exactly when a custom `__str__` raises, which
only non-primitive objects can do.  Container renderings are abstracted to
fixed strings: the engine only ever applies `str` to dict keys (hashable, so
never `list`/`dict`) and to non-primitive objects. -/
def pyStr : PyVal → Option String
  | .noneV => some "None"
  | .boolV b => some (cond b "True" "False")
  | .intV n => some (toString n)
  | .floatV q => some (toString q)
  | .str s => some s
  | .list _ => some "[...]"
  | .tuple _ => some "(...)"
  | .dict _ => some "dict-render"
  | .obj _ render => render

/-- Python `s[:n]`: character-count truncation. -/
def strTake (s : String) (n : Nat) : String := String.mk (s.data.take n)

mutual
/-- `XRay._make_json_safe` (xray.py lines 209-224), with its two helper
recursions over sequence elements and dict items.  `none` models an
uncaught exception escaping the call: the `try/except` only protects the
final `str(value)` fallback (lines 221-224); the `str(k)` applied to dict
keys on line 218 is unprotected, so a key whose rendering raises propagates
its exception. -/
def make_json_safe : PyVal → Option JSON
  | .noneV => some .null
  | .str s => some (.str s)
  | .intV n => some (.intV n)
  | .floatV q => some (.floatV q)
  | .boolV b => some (.boolV b)
  | .list xs => (mjsList xs).map JSON.arr
  | .tuple xs => (mjsList xs).map JSON.arr
  | .dict kvs => (mjsDict kvs).map JSON.obj
  | .obj tn render =>
      match render with
      | some s => some (.str (strTake s 150))
      | none => some (.str ("Object of type " ++ tn))

def mjsList : List PyVal → Option (List JSON)
  | [] => some []
  | x :: rest => do
      let j ← make_json_safe x
      let js ← mjsList rest
      pure (j :: js)

def mjsDict : List (PyVal × PyVal) → Option (List (String × JSON))
  | [] => some []
  | (k, v) :: rest => do
      let ks ← pyStr k
      let jv ← make_json_safe v
      let js ← mjsDict rest
      pure ((ks, jv) :: js)
end

/-- Insertion-ordered string-keyed dict: lookup. -/
def lookupA {α : Type} (k : String) : List (String × α) → Option α
  | [] => none
  | (k2, v) :: rest => if k2 = k then some v else lookupA k rest

/-- Insertion-ordered string-keyed dict: `d[k] = v` (update in place if the
key exists, else append, as Python dicts do). -/
def updA {α : Type} (k : String) (v : α) : List (String × α) → List (String × α)
  | [] => [(k, v)]
  | (k2, v2) :: rest => if k2 = k then (k, v) :: rest else (k2, v2) :: updA k v rest

/-- `XRay._capture_input` (xray.py lines 188-207), positional-argument loop:
`input_data[f"arg_{i}"] = self._make_json_safe(arg)` for `i` counting from
`start_idx`.  A sanitization failure propagates. -/
def captureArgs (i : Nat) (acc : List (String × JSON)) : List PyVal → Option (List (String × JSON))
  | [] => some acc
  | a :: rest => do
      let j ← make_json_safe a
      captureArgs (i + 1) (updA ("arg_" ++ toString i) j acc) rest

/-- `XRay._capture_input`, keyword-argument loop. -/
def captureKwargs (acc : List (String × JSON)) : List (String × PyVal) → Option (List (String × JSON))
  | [] => some acc
  | (k, v) :: rest => do
      let j ← make_json_safe v
      captureKwargs (updA k j acc) rest

/-- `XRay._capture_input` (xray.py lines 188-207).  The guard on line 194 is
`args and hasattr(args[0], '__class__')`; every Python value has
`__class__`, so whenever `args` is non-empty the first positional argument
is recorded as `f"{args[0].__class__.__name__} object"` under key `"self"`
and skipped from the `arg_i` loop (`start_idx = 1`). -/
def capture_input (args : List PyVal) (kwargs : List (String × PyVal)) : Option (List (String × JSON)) :=
  match args with
  | [] => do
      let acc ← captureArgs 0 [] []
      captureKwargs acc kwargs
  | a0 :: rest => do
      let acc ← captureArgs 1 [("self", JSON.str (typeName a0 ++ " object"))] rest
      captureKwargs acc kwargs

/-- `round(x, 2)` (nearest hundredth; see header note on tie behaviour). -/
def round2 (q : ℚ) : ℚ := (Rat.floor (q * 100 + 1 / 2) : ℚ) / 100

/-- One step record: both the live `XRayStep` object and its `to_dict` form
(xray.py lines 12-56) carry exactly these fields; `to_dict` copies them,
rounding `duration_ms`.  The `reasoning` key is always emitted by `to_dict`,
so step dicts in a trace always carry it. -/
structure StepRec where
  id : String
  name : String
  step_type : String
  input : List (String × JSON)
  output : List (String × JSON)
  reasoning : String
  timestamp : String
  duration_ms : ℚ
  success : Bool
  error : Option String

/-- `XRayStep.to_dict` (xray.py lines 43-56): snapshot with `duration_ms`
rounded to 2 decimal places. -/
def to_dict (s : StepRec) : StepRec := { s with duration_ms := round2 s.duration_ms }

/-- One trace dict as held in `XRay.traces` (xray.py lines 77-82); the
finalization keys are added only by `end_trace`, hence `Option`. -/
structure TraceRec where
  id : String
  name : String
  start_time : String
  steps : List StepRec
  end_time : Option String
  total_steps : Option Nat
  total_duration_ms : Option ℚ

/-- The mutable state of an `XRay` instance (xray.py lines 64-68) together
with the files written by `_save_to_file`. -/
structure XRayState where
  current_trace_id : Option String
  traces : List (String × TraceRec)
  current_step : Option StepRec
  files : List (String × TraceRec)

/-- Environment-supplied data consumed by one operation: the uuid-derived
trace/step ids, the ISO timestamp, and the elapsed wall time (ms) a closing
step observes. -/
structure Env where
  traceId : String
  stepId : String
  ts : String
  dur : ℚ

def initState : XRayState :=
  { current_trace_id := none, traces := [], current_step := none, files := [] }

/-- `XRayStep.__init__` (xray.py lines 15-33). -/
def mkStep (env : Env) (name ty : String) : StepRec :=
  { id := env.stepId, name := name, step_type := ty, input := [], output := [],
    reasoning := "", timestamp := env.ts, duration_ms := 0, success := true, error := none }

/-- `XRay.start_trace` (xray.py lines 70-87): allocate a fresh id, install an
empty trace dict under it, mark it active, return the id. -/
def start_trace (name : String) (env : Env) (st : XRayState) : String × XRayState :=
  (env.traceId,
    { st with
      current_trace_id := some env.traceId,
      traces := updA env.traceId
        { id := env.traceId, name := name, start_time := env.ts, steps := [],
          end_time := none, total_steps := none, total_duration_ms := none } st.traces })

/-- Replace the last element of a list by `f` of it (Python
`steps[-1][...] = ...`); no-op on the empty list. -/
def updateLast {α : Type} (f : α → α) : List α → List α
  | [] => []
  | [x] => [f x]
  | x :: y :: rest => x :: updateLast f (y :: rest)

/-- `XRay.add_reasoning` (xray.py lines 137-148).  With an open step,
`XRayStep.add_reasoning` (line 41) assigns `self.reasoning = reasoning`,
replacing any prior text.  With no open step, line 141 indexes
`self.traces[self.current_trace_id]` unguarded (a missing key raises
`KeyError`); if the active trace has steps, the last step dict's reasoning is
extended with `"\n" + text` — the guard `"reasoning" in steps[-1]` on
line 145 always holds because `to_dict` always emits the key. -/
def add_reasoning (text : String) (st : XRayState) : Except PyErr Unit × XRayState :=
  match st.current_step with
  | some s => (.ok (), { st with current_step := some { s with reasoning := text } })
  | none =>
    match st.current_trace_id with
    | none => (.ok (), st)
    | some tid =>
      match lookupA tid st.traces with
      | none => (.error (.keyError tid), st)
      | some tr =>
        if tr.steps.isEmpty then (.ok (), st)
        else
          let addTo := fun (sr : StepRec) => { sr with reasoning := sr.reasoning ++ "\n" ++ text }
          let tr2 := { tr with steps := updateLast addTo tr.steps }
          (.ok (), { st with traces := updA tid tr2 st.traces })

/-- Sum of the recorded steps' `duration_ms` (xray.py line 159). -/
def sumDur (steps : List StepRec) : ℚ := (steps.map StepRec.duration_ms).sum

/-- `XRay.end_trace` (xray.py lines 149-175).  Returns `none` (Python
`None`) when no trace is active; otherwise the lookup on line 154 is
unguarded (`KeyError` if the id is missing), the trace dict gains
`end_time` / `total_steps` / `total_duration_ms`, `_save_to_file`
(lines 177-186) writes `trace_{id}.json` after re-checking membership, and
both the active-trace and open-step slots are cleared. -/
def end_trace (ts : String) (st : XRayState) : Except PyErr (Option String) × XRayState :=
  match st.current_trace_id with
  | none => (.ok none, st)
  | some tid =>
    match lookupA tid st.traces with
    | none => (.error (.keyError tid), st)
    | some tr =>
      let tr2 := { tr with
        end_time := some ts,
        total_steps := some tr.steps.length,
        total_duration_ms := some (round2 (sumDur tr.steps)) }
      let traces2 := updA tid tr2 st.traces
      let files2 :=
        if (lookupA tid traces2).isSome
        then updA ("trace_" ++ tid ++ ".json") tr2 st.files
        else st.files
      (.ok (some tid),
        { current_trace_id := none, traces := traces2, current_step := none, files := files2 })

/-- The body of an instrumented call, as far as the tracer can observe it:
it returns a value, raises, calls `xray.add_reasoning` and continues, or
invokes a further instrumented call. -/
inductive Prog where
  | ret (v : PyVal)
  | raiseE (msg : String)
  | reason (text : String) (p : Prog)
  | instr (name ty : String) (args : List PyVal) (kwargs : List (String × PyVal)) (body : Prog)

/-- The `except Exception as e:` branch (xray.py lines 112-116): mark the
current step failed with `error = str(e)` and let the exception continue to
the `finally`.  When `_current_step` is `None`, the attribute assignment on
line 114 itself raises `AttributeError`, replacing `e`. -/
def exceptPath (e : PyErr) (st : XRayState) : Except PyErr PyVal × XRayState :=
  match st.current_step with
  | some s =>
      (.error e, { st with current_step := some { s with success := false, error := some (pyErrMsg e) } })
  | none => (.error (.attrNone "success"), st)

/-- The `finally:` block (xray.py lines 118-132): `self._current_step.end()`
(raises `AttributeError` if the slot is `None`, replacing any in-flight
result), then append `to_dict` of the step to the active trace if
`self.current_trace_id and self.current_trace_id in self.traces`, then clear
the open-step slot. -/
def finallyClose (env : Env) (r : Except PyErr PyVal) (st : XRayState) : Except PyErr PyVal × XRayState :=
  match st.current_step with
  | none => (.error (.attrNone "end"), st)
  | some s =>
    let sd := to_dict { s with duration_ms := env.dur }
    let traces2 :=
      match st.current_trace_id with
      | some tid =>
        match lookupA tid st.traces with
        | some tr => updA tid { tr with steps := tr.steps ++ [sd] } st.traces
        | none => st.traces
      | none => st.traces
    (r, { st with traces := traces2, current_step := none })

/-- Lines 102-132 of xray.py after the body has produced `res`: the tail of
the `try` (set sanitized output and `success = True` on the open-step slot —
line 107 evaluates the sanitized result first, and assigning on a `None`
slot raises inside the `try`), the `except` branch for a raising body, and
the `finally`. -/
def closeStep (env : Env) (res : Except PyErr PyVal × XRayState) : Except PyErr PyVal × XRayState :=
  let mid :=
    match res.1 with
    | .ok v =>
      match make_json_safe v with
      | some jv =>
        match res.2.current_step with
        | some s =>
            (Except.ok v, { res.2 with current_step := some { s with output := [("result", jv)], success := true } })
        | none => exceptPath (.attrNone "output") res.2
      | none => exceptPath .renderError res.2
    | .error e => exceptPath e res.2
  finallyClose env mid.1 mid.2

/-- Execution of a body under the tracer: `ret`/`raiseE` are the wrapped
call's own outcome, `reason` is a call to `XRay.add_reasoning` (an exception
from it propagates into the surrounding code), and `instr` is the wrapper
produced by the `XRay.trace` decorator (xray.py lines 89-135): open a fresh
step into the single `_current_step` slot, capture input (line 100, before
the `try`, so a capture failure propagates with no `finally`), run the body,
then `closeStep`. -/
def exec (env : Env) : Prog → XRayState → Except PyErr PyVal × XRayState
  | .ret v, st => (.ok v, st)
  | .raiseE msg, st => (.error (.raised msg), st)
  | .reason text p, st =>
    match add_reasoning text st with
    | (.ok _, st2) => exec env p st2
    | (.error e, st2) => (.error e, st2)
  | .instr name ty args kwargs body, st =>
    let st1 := { st with current_step := some (mkStep env name ty) }
    match capture_input args kwargs with
    | none => (.error .renderError, st1)
    | some inp =>
      let st2 := { st1 with current_step := some { (mkStep env name ty) with input := inp } }
      closeStep env (exec env body st2)

/-- One public operation on the tracer, with the environment data it
consumes. -/
inductive Op where
  | startT (name : String) (env : Env)
  | call (p : Prog) (env : Env)
  | reasonOp (text : String)
  | endT (ts : String)

/-- Apply one public operation, keeping the state even when the operation
raises (a raised exception leaves the state the operation built so far). -/
def applyOp (st : XRayState) : Op → XRayState
  | .startT name env => (start_trace name env st).2
  | .call p env => (exec env p st).2
  | .reasonOp text => (add_reasoning text st).2
  | .endT ts => (end_trace ts st).2

/-- State reached by a sequence of public operations from a fresh `XRay()`. -/
def run (ops : List Op) : XRayState := ops.foldl applyOp initState

/-- The active-trace slot, when set, names a key of the in-memory trace
table. -/
def TracerInv (st : XRayState) : Prop :=
  ∀ tid, st.current_trace_id = some tid → (lookupA tid st.traces).isSome = true

/-- The filename filter on server.py line 744:
`file.startswith('trace_') and file.endswith('.json')` (modelled over the
character list of the name). -/
def matchesPattern (fn : String) : Bool :=
  List.isPrefixOf "trace_".data fn.data && List.isSuffixOf ".json".data fn.data

/-- Python `s.replace(pat, rep)`: replace all non-overlapping occurrences
left to right.  Driven by a character-count fuel; every step consumes at
least one character of the subject, so `s.length` fuel is exact. -/
def replaceAllAux (pat rep : List Char) : Nat → List Char → List Char
  | 0, s => s
  | _ + 1, [] => []
  | n + 1, c :: rest =>
      if !pat.isEmpty && List.isPrefixOf pat (c :: rest) then
        rep ++ replaceAllAux pat rep n ((c :: rest).drop pat.length)
      else
        c :: replaceAllAux pat rep n rest

/-- Python `s.replace(pat, rep)` on strings. -/
def strReplace (s pat rep : String) : String :=
  String.mk (replaceAllAux pat.data rep.data s.data.length s.data)

/-- `file.replace('trace_', '').replace('.json', '')` (server.py line 749):
the fallback id derived from the filename. -/
def stripTraceName (fn : String) : String :=
  strReplace (strReplace fn "trace_" "") ".json" ""

/-- The summary object built per parsed file (server.py lines 748-754),
using `dict.get` defaults for missing fields. -/
def mkSummary (fn : String) (kvs : List (String × JSON)) : JSON :=
  .obj [("id", (lookupA "id" kvs).getD (.str (stripTraceName fn))),
        ("name", (lookupA "name" kvs).getD (.str "Trace")),
        ("start_time", (lookupA "start_time" kvs).getD (.str "")),
        ("total_steps", (lookupA "total_steps" kvs).getD (.intV 0)),
        ("total_duration_ms", (lookupA "total_duration_ms" kvs).getD (.intV 0))]

/-- Sort key `x.get("start_time", "")` (server.py line 760).  Summaries
always carry the key; a non-string value is abstracted to `""` (in Python a
mixed-type key list would make the sort raise, a case no claim exercises). -/
def startKey (j : JSON) : String :=
  match j with
  | .obj kvs =>
    match lookupA "start_time" kvs with
    | some (.str s) => s
    | _ => ""
  | _ => ""

/-- Per-file processing in `_send_trace_list` (server.py lines 743-757): the
name filter, then `json.load` (parse failure modelled as `none` content),
then the summary construction — `data.get` on a non-object raises and the
surrounding `try/except` skips the file. -/
def readEntry : String × Option JSON → Option JSON
  | (fn, content) =>
    if matchesPattern fn then
      match content with
      | some (.obj kvs) => some (mkSummary fn kvs)
      | _ => none
    else none

/-- `DashboardHandler._send_trace_list` (server.py lines 738-762): collect
summaries of the parseable `trace_*.json` files, skipping unreadable ones,
then sort by `start_time` descending (Python's stable sort abstracted as a
stable insertion sort; only the resulting multiset is observed by claims). -/
def send_trace_list (files : List (String × Option JSON)) : List JSON :=
  List.insertionSort (fun a b => startKey b ≤ startKey a) (files.filterMap readEntry)

/-- Outcome of `GET /api/trace/{id}`. -/
inductive GetResp where
  | ok200 (body : JSON)
  | notFound404

/-- Outcome of `POST /api/traces`; `created201` carries the `id` echoed in
the `{"ok": true, "id": ...}` body. -/
inductive SaveResp where
  | created201 (idVal : JSON)
  | err500

/-- Python f-string conversion of a JSON value (for
`f"trace_{trace['id']}.json"`); only the string case is exercised by the
claims, the rest are abstract renderings. -/
def fstr : JSON → String
  | .str s => s
  | .intV n => toString n
  | .floatV q => toString q
  | .boolV b => cond b "True" "False"
  | .null => "None"
  | .arr _ => "[...]"
  | .obj _ => "dict-render"

/-- `DashboardHandler._save_new_trace` (server.py lines 775-796): parse the
body (`none` = unparseable, → 500), read `trace['id']` (`KeyError` /
`TypeError` on a non-object → caught → 500), write `trace_{id}.json`
(overwriting any prior record), answer 201 echoing the id.  The store keeps
the JSON value itself: `json.dump` followed by `json.load` is the identity
on JSON-representable values. -/
def save_new_trace (body : Option JSON) (files : List (String × JSON)) : SaveResp × List (String × JSON) :=
  match body with
  | none => (.err500, files)
  | some j =>
    match j with
    | .obj kvs =>
      match lookupA "id" kvs with
      | some idv => (.created201 idv, updA ("trace_" ++ fstr idv ++ ".json") j files)
      | none => (.err500, files)
    | _ => (.err500, files)

/-- `DashboardHandler._send_single_trace` (server.py lines 764-773): 200
with the parsed file if `trace_{id}.json` exists, else 404. -/
def send_single_trace (tid : String) (files : List (String × JSON)) : GetResp :=
  match lookupA ("trace_" ++ tid ++ ".json") files with
  | some j => .ok200 j
  | none => .notFound404


/-- The wrapped call's own outcome with instrumentation erased: what a
caller would observe from the body alone (the decorator is meant to be
transparent). -/
def pureSem : Prog → Except String PyVal
  | .ret v => .ok v
  | .raiseE m => .error m
  | .reason _ p => pureSem p
  | .instr _ _ _ _ body => pureSem body

/-- The reasoning text of the last recorded step of trace `tid`. -/
def lastReasoning (st : XRayState) (tid : String) : Option String :=
  (lookupA tid st.traces).bind fun tr => tr.steps.getLast?.map StepRec.reasoning

/-- A concrete environment for witness evaluations. -/
def env0 : Env := { traceId := "trace_1_aa", stepId := "s1", ts := "t0", dur := 0 }

/-- The trace record created by `start_trace "demo" env0`. -/
def trDemo : TraceRec :=
  { id := "trace_1_aa", name := "demo", start_time := "t0", steps := [],
    end_time := none, total_steps := none, total_duration_ms := none }

/-- The state right after `start_trace "demo" env0` on a fresh tracer. -/
def stDemo : XRayState := (start_trace "demo" env0 initState).2

/-- A body that calls `add_reasoning` twice while its own step is open. -/
def progC1 : Prog :=
  .instr "Step" "generic" [] [] (.reason "first" (.reason "second" (.ret .noneV)))

/-- An instrumented call whose body is a plain return: the inner call of the
nesting counterexample. -/
def nestedInner : Prog := .instr "inner" "generic" [] [] (.ret (.intV 1))

/-- A recorded step whose reasoning is still empty. -/
def stepEmptyReasoning : StepRec :=
  { id := "s0", name := "A", step_type := "generic", input := [], output := [],
    reasoning := "", timestamp := "t0", duration_ms := 0, success := true, error := none }

/-- An active trace holding one closed step with empty reasoning. -/
def trC7 : TraceRec :=
  { id := "t", name := "demo", start_time := "t0", steps := [stepEmptyReasoning],
    end_time := none, total_steps := none, total_duration_ms := none }

/-- Tracer state with no open step and `trC7` active. -/
def stC7 : XRayState :=
  { current_trace_id := some "t", traces := [("t", trC7)], current_step := none, files := [] }

/-- A well-formed persisted trace record as the engine writes it: all the
summary fields present with their expected shapes. -/
structure GoodTrace where
  id : String
  name : String
  start_time : String
  total_steps : Int
  total_duration_ms : ℚ
  steps : JSON

/-- The JSON object stored on disk for a well-formed trace. -/
def GoodTrace.toJSON (g : GoodTrace) : JSON :=
  .obj [("id", .str g.id), ("name", .str g.name), ("start_time", .str g.start_time),
        ("total_steps", .intV g.total_steps),
        ("total_duration_ms", .floatV g.total_duration_ms), ("steps", g.steps)]

/-- The summary `list()` owes for a well-formed trace. -/
def GoodTrace.summary (g : GoodTrace) : JSON :=
  .obj [("id", .str g.id), ("name", .str g.name), ("start_time", .str g.start_time),
        ("total_steps", .intV g.total_steps),
        ("total_duration_ms", .floatV g.total_duration_ms)]

/-- Concrete well-formed traces for the list witness. -/
def gA : GoodTrace :=
  { id := "a", name := "A", start_time := "2024-01-02", total_steps := 1,
    total_duration_ms := 5/2, steps := .arr [] }

/-- Second concrete well-formed trace for the list witness. -/
def gB : GoodTrace :=
  { id := "b", name := "B", start_time := "2024-01-01", total_steps := 2,
    total_duration_ms := 7/4, steps := .arr [] }

theorem lookupA_updA {α : Type} (k k2 : String) (v : α) (m : List (String × α)) :
    lookupA k2 (updA k v m) = if k2 = k then some v else lookupA k2 m := by
  induction m with
  | nil =>
    by_cases h : k2 = k
    · subst h; simp [updA, lookupA]
    · simp [updA, lookupA, h, Ne.symm h]
  | cons kv rest ih =>
    obtain ⟨k3, v3⟩ := kv
    by_cases h3 : k3 = k <;> by_cases h2 : k3 = k2 <;> by_cases h23 : k2 = k <;>
      simp_all [updA, lookupA]

theorem updateLast_append {α : Type} (f : α → α) (pre : List α) (x : α) :
    updateLast f (pre ++ [x]) = pre ++ [f x] := by
  induction pre with
  | nil => rfl
  | cons a rest ih =>
    cases rest with
    | nil => rfl
    | cons b rest2 =>
      show a :: updateLast f ((b :: rest2) ++ [x]) = a :: ((b :: rest2) ++ [f x])
      exact congrArg _ ih

theorem add_reasoning_preserves (text : String) (st : XRayState) :
    (add_reasoning text st).2.current_trace_id = st.current_trace_id
    ∧ ∀ k, (lookupA k st.traces).isSome = true →
        (lookupA k (add_reasoning text st).2.traces).isSome = true := by
  obtain ⟨cti, traces, cs, files⟩ := st
  cases cs with
  | some s => exact ⟨rfl, fun k h => h⟩
  | none =>
    cases cti with
    | none => exact ⟨rfl, fun k h => h⟩
    | some tid =>
      simp only [add_reasoning]
      cases hl : lookupA tid traces with
      | none => exact ⟨rfl, fun k h => h⟩
      | some tr =>
        by_cases he : tr.steps.isEmpty = true
        · simp only [he, if_true]
          exact ⟨trivial, fun k h => h⟩
        · simp only [he, if_false, Bool.false_eq_true]
          refine ⟨trivial, fun k h => ?_⟩
          rw [lookupA_updA]
          by_cases hk : k = tid
          · simp [hk]
          · simp only [if_neg hk]
            exact h

theorem exceptPath_preserves (e : PyErr) (st : XRayState) :
    (exceptPath e st).2.current_trace_id = st.current_trace_id
    ∧ (exceptPath e st).2.traces = st.traces := by
  obtain ⟨cti, traces, cs, files⟩ := st
  cases cs with
  | some s => exact ⟨rfl, rfl⟩
  | none => exact ⟨rfl, rfl⟩

theorem finallyClose_preserves (env : Env) (r : Except PyErr PyVal) (st : XRayState) :
    (finallyClose env r st).2.current_trace_id = st.current_trace_id
    ∧ ∀ k, (lookupA k st.traces).isSome = true →
        (lookupA k (finallyClose env r st).2.traces).isSome = true := by
  obtain ⟨cti, traces, cs, files⟩ := st
  cases cs with
  | none => exact ⟨rfl, fun k h => h⟩
  | some s =>
    cases cti with
    | none => exact ⟨rfl, fun k h => h⟩
    | some tid =>
      simp only [finallyClose]
      cases hl : lookupA tid traces with
      | none => exact ⟨trivial, fun k h => h⟩
      | some tr =>
        refine ⟨trivial, fun k h => ?_⟩
        rw [lookupA_updA]
        by_cases hk : k = tid
        · simp [hk]
        · simp only [if_neg hk]
          exact h

theorem closeStep_preserves (env : Env) (res : Except PyErr PyVal × XRayState) :
    (closeStep env res).2.current_trace_id = res.2.current_trace_id
    ∧ ∀ k, (lookupA k res.2.traces).isSome = true →
        (lookupA k (closeStep env res).2.traces).isSome = true := by
  obtain ⟨r, stB⟩ := res
  have hmid : ∀ mid : Except PyErr PyVal × XRayState,
      mid.2.current_trace_id = stB.current_trace_id → mid.2.traces = stB.traces →
      (finallyClose env mid.1 mid.2).2.current_trace_id = stB.current_trace_id
      ∧ ∀ k, (lookupA k stB.traces).isSome = true →
          (lookupA k (finallyClose env mid.1 mid.2).2.traces).isSome = true := by
    intro mid h1 h2
    have hf := finallyClose_preserves env mid.1 mid.2
    exact ⟨hf.1.trans h1, fun k h => hf.2 k (h2 ▸ h)⟩
  simp only [closeStep]
  cases r with
  | error e =>
    have he := exceptPath_preserves e stB
    exact hmid _ he.1 he.2
  | ok v =>
    dsimp only
    cases hmj : make_json_safe v with
    | none =>
      have he := exceptPath_preserves PyErr.renderError stB
      exact hmid _ he.1 he.2
    | some jv =>
      cases hcs : stB.current_step with
      | none =>
        have he := exceptPath_preserves (PyErr.attrNone "output") stB
        exact hmid _ he.1 he.2
      | some s => exact hmid _ rfl rfl

theorem exec_preserves (env : Env) (p : Prog) :
    ∀ st : XRayState,
      (exec env p st).2.current_trace_id = st.current_trace_id
      ∧ ∀ k, (lookupA k st.traces).isSome = true →
          (lookupA k (exec env p st).2.traces).isSome = true := by
  induction p with
  | ret v => exact fun st => ⟨rfl, fun k h => h⟩
  | raiseE m => exact fun st => ⟨rfl, fun k h => h⟩
  | reason t p ih =>
    intro st
    have har := add_reasoning_preserves t st
    simp only [exec]
    rcases hr : add_reasoning t st with ⟨r1, st2⟩
    rw [hr] at har
    cases r1 with
    | ok u =>
      have hih := ih st2
      exact ⟨hih.1.trans har.1, fun k h => hih.2 k (har.2 k h)⟩
    | error e => exact har
  | instr n ty args kwargs body ih =>
    intro st
    simp only [exec]
    cases hc : capture_input args kwargs with
    | none => exact ⟨rfl, fun k h => h⟩
    | some inp =>
      have hih := ih { st with current_step := some { (mkStep env n ty) with input := inp } }
      have hcl := closeStep_preserves env (exec env body { st with current_step := some { (mkStep env n ty) with input := inp } })
      exact ⟨hcl.1.trans hih.1, fun k h => hcl.2 k (hih.2 k h)⟩

theorem applyOp_preserves (st : XRayState) (op : Op) (h : TracerInv st) :
    TracerInv (applyOp st op) := by
  cases op with
  | startT name env =>
    intro tid htid
    have he : env.traceId = tid := by simpa [applyOp, start_trace] using htid
    subst he
    simp [applyOp, start_trace, lookupA_updA]
  | call p env =>
    have hp := exec_preserves env p st
    intro tid htid
    simp only [applyOp] at htid ⊢
    rw [hp.1] at htid
    exact hp.2 tid (h tid htid)
  | reasonOp t =>
    have hp := add_reasoning_preserves t st
    intro tid htid
    simp only [applyOp] at htid ⊢
    rw [hp.1] at htid
    exact hp.2 tid (h tid htid)
  | endT ts =>
    simp only [applyOp]
    obtain ⟨cti, traces, cs, files⟩ := st
    cases cti with
    | none => exact h
    | some tid0 =>
      simp only [end_trace]
      cases hl : lookupA tid0 traces with
      | none => exact h
      | some tr =>
        intro tid htid
        exact Option.noConfusion htid

theorem foldl_inv (ops : List Op) : ∀ st, TracerInv st → TracerInv (ops.foldl applyOp st) := by
  induction ops with
  | nil => exact fun st h => h
  | cons op rest ih => exact fun st h => ih _ (applyOp_preserves st op h)

theorem add_reasoning_no_keyError (st : XRayState) (h : TracerInv st) (text : String) :
    ∃ st2, add_reasoning text st = (Except.ok (), st2) := by
  obtain ⟨cti, traces, cs, files⟩ := st
  cases cs with
  | some s => exact ⟨_, rfl⟩
  | none =>
    cases cti with
    | none => exact ⟨_, rfl⟩
    | some tid =>
      have hs := h tid rfl
      simp only [add_reasoning]
      cases hl : lookupA tid traces with
      | none =>
        rw [hl] at hs
        simp at hs
      | some tr =>
        by_cases he : tr.steps.isEmpty = true <;>
          simp only [he, if_true, if_false, Bool.false_eq_true] <;> exact ⟨_, rfl⟩

theorem end_trace_no_keyError (st : XRayState) (h : TracerInv st) (ts tid : String)
    (hcti : st.current_trace_id = some tid) :
    ∃ st2, end_trace ts st = (Except.ok (some tid), st2)
      ∧ (lookupA tid st2.traces).isSome = true := by
  obtain ⟨cti, traces, cs, files⟩ := st
  obtain rfl : cti = some tid := hcti
  have hs := h tid rfl
  simp only [end_trace]
  cases hl : lookupA tid traces with
  | none =>
    rw [hl] at hs
    simp at hs
  | some tr =>
    refine ⟨_, rfl, ?_⟩
    simp [lookupA_updA]

/-- C1 (code_bug): the spec requires `attachReasoning` during an open step
to accumulate texts newline-joined, and the code's own comment in
`XRay.add_reasoning` says "APPEND to existing reasoning, not overwrite!",
but `XRayStep.add_reasoning` (xray.py line 41) assigns, so the second call
during one open step overwrites the first: the recorded step carries only
`"second"`, not `"first\nsecond"`. -/
theorem c1_open_step_reasoning_overwritten :
    lastReasoning (exec env0 progC1 stDemo).2 "trace_1_aa" = some "second"
    ∧ some "second" ≠ some ("first" ++ "\n" ++ "second") := by
  constructor
  · rfl
  · intro h
    have h2 : "second" = "first" ++ "\n" ++ "second" := Option.some.inj h
    exact absurd h2 (by decide)

/-- C3 (code_bug): `_capture_input` is meant to skip only a genuine
receiver, but its guard `hasattr(args[0], '__class__')` holds for every
Python value, so a plain integer first positional argument is recorded as
`"int object"` under `"self"` and no `arg_0` entry exists. -/
theorem c3_first_positional_arg_always_skipped :
    capture_input [PyVal.intV 3] [] = some [("self", JSON.str "int object")]
    ∧ lookupA "arg_0" [("self", JSON.str "int object")] = none := ⟨rfl, rfl⟩

/-- C6 (code_bug): sanitization is not total — a mapping whose key's
`str()` raises propagates the exception (the `try/except` protects only the
final fallback branch), even though the very same failing object sanitizes
to the type-name placeholder when it occurs as a value; ordinary inputs
follow the documented rules. -/
theorem c6_sanitize_not_total_on_bad_dict_key :
    make_json_safe (.dict [(.obj "Bad" none, .intV 1)]) = none
    ∧ make_json_safe .noneV = some .null
    ∧ make_json_safe (.str "a") = some (.str "a")
    ∧ make_json_safe (.intV 5) = some (.intV 5)
    ∧ make_json_safe (.list [.intV 3, .boolV true]) = some (.arr [.intV 3, .boolV true])
    ∧ make_json_safe (.dict [(.str "k", .intV 1)]) = some (.obj [("k", .intV 1)])
    ∧ make_json_safe (.obj "Bad" none) = some (.str "Object of type Bad") :=
  ⟨rfl, rfl, rfl, rfl, rfl, rfl, rfl⟩

/-- C2 counterexample: a wrapped call that itself invokes another
instrumented call is not transparent — the inner wrapper's `finally` clears
the shared `_current_step` slot, so the outer wrapper's own bookkeeping
raises `AttributeError` on `None` and the caller loses the body's return
value `1`. -/
theorem c2_nested_instrument_not_transparent :
    pureSem nestedInner = Except.ok (PyVal.intV 1)
    ∧ (exec env0 (.instr "outer" "generic" [] [] nestedInner) initState).1
        = .error (.attrNone "end")
    ∧ ¬ ((exec env0 (.instr "outer" "generic" [] [] nestedInner) initState).1
        = .ok (.intV 1)) :=
  ⟨rfl, rfl, fun h => Except.noConfusion h⟩

/-- C2 (amended): for a wrapped call whose body does not itself invoke an
instrumented call, whose arguments sanitize without error and (on success)
whose result sanitizes without error, the caller observes exactly the
body's own return value on success or its own error unchanged on failure. -/
theorem c2_instrument_transparent_nonnested (n ty : String) (args : List PyVal)
    (kwargs : List (String × PyVal)) (inp : List (String × JSON)) (st : XRayState) (env : Env)
    (hcap : capture_input args kwargs = some inp) :
    (∀ v jv, make_json_safe v = some jv →
        (exec env (.instr n ty args kwargs (.ret v)) st).1 = .ok v)
    ∧ ∀ msg, (exec env (.instr n ty args kwargs (.raiseE msg)) st).1 = .error (.raised msg) := by
  constructor
  · intro v jv hmj
    simp only [exec, hcap, closeStep, hmj]
    rfl
  · intro msg
    simp only [exec, hcap]
    rfl

/-- Witness for C2's amended theorem at a concrete call. -/
theorem c2_instrument_transparent_nonnested_witness :
    (exec env0 (.instr "Step" "generic" [] [] (.ret (.intV 7))) initState).1 = .ok (.intV 7)
    ∧ (exec env0 (.instr "Step" "generic" [] [] (.raiseE "boom")) initState).1
        = .error (.raised "boom") :=
  ⟨(c2_instrument_transparent_nonnested "Step" "generic" [] [] [] initState env0 rfl).1
      (.intV 7) (.intV 7) rfl,
   (c2_instrument_transparent_nonnested "Step" "generic" [] [] [] initState env0 rfl).2 "boom"⟩

/-- C4: when the wrapped call raises an error with message `msg`, the
wrapper records a step with `success = false`, `error = msg` and an empty
output mapping (so no `result` entry), appends it to the active trace, and
re-raises the same error to the caller. -/
theorem c4_failed_call_recorded (n ty msg tid : String) (args : List PyVal)
    (kwargs : List (String × PyVal)) (inp : List (String × JSON)) (st : XRayState)
    (env : Env) (tr : TraceRec)
    (hcap : capture_input args kwargs = some inp)
    (hcti : st.current_trace_id = some tid)
    (hlk : lookupA tid st.traces = some tr) :
    (exec env (.instr n ty args kwargs (.raiseE msg)) st).1 = .error (.raised msg)
    ∧ lookupA tid (exec env (.instr n ty args kwargs (.raiseE msg)) st).2.traces
        = some { tr with steps := tr.steps ++
            [{ id := env.stepId, name := n, step_type := ty, input := inp, output := [],
               reasoning := "", timestamp := env.ts, duration_ms := round2 env.dur,
               success := false, error := some msg }] } := by
  constructor
  · simp only [exec, hcap]
    rfl
  · simp only [exec, hcap, closeStep, exceptPath, finallyClose, to_dict, mkStep, pyErrMsg,
      hcti, hlk, lookupA_updA, if_pos]

/-- Witness for C4 at the spec's own scenario (`"boom"`). -/
theorem c4_failed_call_recorded_witness :
    (exec env0 (.instr "Step A" "x" [] [] (.raiseE "boom")) stDemo).1 = .error (.raised "boom")
    ∧ lookupA "trace_1_aa" (exec env0 (.instr "Step A" "x" [] [] (.raiseE "boom")) stDemo).2.traces
        = some { trDemo with steps := trDemo.steps ++
            [{ id := env0.stepId, name := "Step A", step_type := "x", input := [], output := [],
               reasoning := "", timestamp := env0.ts, duration_ms := round2 env0.dur,
               success := false, error := some "boom" }] } :=
  c4_failed_call_recorded "Step A" "x" "boom" "trace_1_aa" [] [] [] stDemo env0 trDemo rfl rfl rfl

/-- C5: `end_trace` stamps `end_time`, sets `total_steps` to the number of
recorded steps and `total_duration_ms` to the 2-decimal rounding of the sum
of the steps' `duration_ms`, persists the finalized record to
`trace_{id}.json`, clears both the active-trace and open-step slots, and
returns the finalized trace's id. -/
theorem c5_end_trace_totals (ts tid : String) (st : XRayState) (tr : TraceRec)
    (hcti : st.current_trace_id = some tid)
    (hlk : lookupA tid st.traces = some tr) :
    ∃ tr2 : TraceRec,
      end_trace ts st = (Except.ok (some tid),
        { current_trace_id := none, traces := updA tid tr2 st.traces, current_step := none,
          files := updA ("trace_" ++ tid ++ ".json") tr2 st.files })
      ∧ tr2.steps = tr.steps
      ∧ tr2.total_steps = some tr2.steps.length
      ∧ tr2.total_duration_ms = some (round2 (sumDur tr2.steps))
      ∧ tr2.end_time = some ts := by
  refine ⟨{ tr with end_time := some ts, total_steps := some tr.steps.length, total_duration_ms := some (round2 (sumDur tr.steps)) }, ?_, rfl, rfl, rfl, rfl⟩
  simp only [end_trace, hcti, hlk, lookupA_updA, if_pos, Option.isSome_some]

/-- Witness for C5 on the freshly started demo trace. -/
theorem c5_end_trace_totals_witness :
    ∃ tr2 : TraceRec,
      end_trace "t9" stDemo = (Except.ok (some "trace_1_aa"),
        { current_trace_id := none, traces := updA "trace_1_aa" tr2 stDemo.traces,
          current_step := none,
          files := updA ("trace_" ++ "trace_1_aa" ++ ".json") tr2 stDemo.files })
      ∧ tr2.steps = trDemo.steps
      ∧ tr2.total_steps = some tr2.steps.length
      ∧ tr2.total_duration_ms = some (round2 (sumDur tr2.steps))
      ∧ tr2.end_time = some "t9" :=
  c5_end_trace_totals "t9" "trace_1_aa" stDemo trDemo rfl rfl

/-- C7 counterexample: with no open step and a most recently closed step
whose reasoning is empty, the code still prepends a line break — the guard
is key-presence (`"reasoning" in steps[-1]`, always true for recorded
steps), not non-emptiness, so the result is `"\nhello"` where the claim
expects `"hello"`. -/
theorem c7_newline_prepended_on_empty_reasoning :
    lastReasoning (add_reasoning "hello" stC7).2 "t" = some "\nhello"
    ∧ some "\nhello" ≠ some ("hello" : String) := by
  constructor
  · rfl
  · intro h
    exact absurd (Option.some.inj h) (by decide)

/-- C7 (amended): with no open step, `add_reasoning` appends to the most
recently closed step's reasoning always joined with a line break (recorded
step dicts always carry the `reasoning` key, so the presence guard always
passes even when the existing text is empty), touching no other step; with
no active trace, or an active trace with no steps, it is a no-op. -/
theorem c7_attach_to_last_closed_step (st : XRayState) (tid text : String) (tr : TraceRec)
    (pre : List StepRec) (lastS : StepRec) (hcs : st.current_step = none) :
    (st.current_trace_id = some tid → lookupA tid st.traces = some tr →
      tr.steps = pre ++ [lastS] →
      add_reasoning text st = (Except.ok (),
        { st with traces := updA tid { tr with steps := pre ++ [{ lastS with reasoning := lastS.reasoning ++ "\n" ++ text }] } st.traces }))
    ∧ (st.current_trace_id = none → add_reasoning text st = (Except.ok (), st))
    ∧ (st.current_trace_id = some tid → lookupA tid st.traces = some tr → tr.steps = [] →
        add_reasoning text st = (Except.ok (), st)) := by
  obtain ⟨cti, traces, cs, files⟩ := st
  obtain rfl : cs = none := hcs
  refine ⟨?_, ?_, ?_⟩
  · intro hcti hlk hsteps
    obtain rfl : cti = some tid := hcti
    have hne : (pre ++ [lastS]).isEmpty = false := by
      cases pre <;> rfl
    simp only [add_reasoning, hlk, hsteps, hne, Bool.false_eq_true, if_false,
      updateLast_append]
  · intro hcti
    obtain rfl : cti = none := hcti
    rfl
  · intro hcti hlk hsteps
    obtain rfl : cti = some tid := hcti
    simp only [add_reasoning, hlk, hsteps, List.isEmpty_nil, if_true]

/-- Witness for C7's amended theorem on the concrete closed-step state. -/
theorem c7_attach_to_last_closed_step_witness :
    add_reasoning "hello" stC7 = (Except.ok (),
      { stC7 with traces := updA "t" { trC7 with steps := [] ++ [{ stepEmptyReasoning with reasoning := stepEmptyReasoning.reasoning ++ "\n" ++ "hello" }] } stC7.traces }) :=
  (c7_attach_to_last_closed_step stC7 "t" "hello" trC7 [] stepEmptyReasoning rfl).1 rfl rfl rfl

/-- C9: submitting a trace record carrying a string id and then fetching
that id returns exactly the submitted record with a 200, the save itself
answering 201 echoing the id. -/
theorem c9_save_then_get_roundtrip (kvs : List (String × JSON)) (s : String)
    (files : List (String × JSON)) (hid : lookupA "id" kvs = some (.str s)) :
    (save_new_trace (some (.obj kvs)) files).1 = .created201 (.str s)
    ∧ send_single_trace s (save_new_trace (some (.obj kvs)) files).2 = .ok200 (.obj kvs) := by
  constructor
  · simp only [save_new_trace, hid]
  · simp only [save_new_trace, hid, send_single_trace, fstr, lookupA_updA, if_pos]

/-- Witness for C9 at the spec's own scenario
`{"id": "t1", "name": "demo", "steps": []}`. -/
theorem c9_save_then_get_roundtrip_witness :
    (save_new_trace (some (.obj [("id", .str "t1"), ("name", .str "demo"), ("steps", .arr [])])) []).1
      = .created201 (.str "t1")
    ∧ send_single_trace "t1"
        (save_new_trace (some (.obj [("id", .str "t1"), ("name", .str "demo"), ("steps", .arr [])])) []).2
      = .ok200 (.obj [("id", .str "t1"), ("name", .str "demo"), ("steps", .arr [])]) :=
  c9_save_then_get_roundtrip [("id", .str "t1"), ("name", .str "demo"), ("steps", .arr [])] "t1" [] rfl

theorem readEntry_good (fn : String) (g : GoodTrace) (hp : matchesPattern fn = true) :
    readEntry (fn, some g.toJSON) = some g.summary := by
  simp only [readEntry, hp, if_true]
  rfl

theorem readEntry_skips_unparseable (fn : String) : readEntry (fn, none) = none := by
  simp only [readEntry]
  split <;> rfl

theorem filterMap_readEntry_goods (l : List (String × GoodTrace))
    (hp : ∀ f ∈ l, matchesPattern f.1 = true) :
    (l.map (fun f => (f.1, some f.2.toJSON))).filterMap readEntry
      = l.map (fun f => f.2.summary) := by
  induction l with
  | nil => rfl
  | cons f rest ih =>
    simp only [List.map_cons, List.filterMap_cons, readEntry_good f.1 f.2 (hp f (by simp))]
    rw [ih (fun x hx => hp x (by simp [hx]))]

/-- C8: with N well-formed persisted traces (distinct ids) plus one
unparseable record, `list()` returns exactly N summaries — a permutation
(the endpoint sorts by `start_time` descending) of the per-trace summaries,
each carrying the trace's own id, name, total_steps and total_duration_ms —
and the corrupt record is skipped without hiding the rest. -/
theorem c8_list_skips_corrupt (pre post : List (String × GoodTrace)) (badName : String)
    (hpre : ∀ f ∈ pre, matchesPattern f.1 = true)
    (hpost : ∀ f ∈ post, matchesPattern f.1 = true)
    (_hids : ((pre ++ post).map (fun f => f.2.id)).Nodup) :
    (send_trace_list (pre.map (fun f => (f.1, some f.2.toJSON)) ++ [(badName, none)]
        ++ post.map (fun f => (f.1, some f.2.toJSON)))).length = (pre ++ post).length
    ∧ List.Perm
        (send_trace_list (pre.map (fun f => (f.1, some f.2.toJSON)) ++ [(badName, none)]
          ++ post.map (fun f => (f.1, some f.2.toJSON))))
        ((pre ++ post).map (fun f => f.2.summary)) := by
  have hraw : ((pre.map (fun f : String × GoodTrace => (f.1, some f.2.toJSON)) ++ [(badName, none)]
      ++ post.map (fun f : String × GoodTrace => (f.1, some f.2.toJSON))).filterMap readEntry)
      = (pre ++ post).map (fun f : String × GoodTrace => f.2.summary) := by
    rw [List.filterMap_append, List.filterMap_append, filterMap_readEntry_goods pre hpre,
      filterMap_readEntry_goods post hpost, List.map_append]
    simp [readEntry_skips_unparseable]
  have hperm : List.Perm
      (send_trace_list (pre.map (fun f : String × GoodTrace => (f.1, some f.2.toJSON)) ++ [(badName, none)]
        ++ post.map (fun f : String × GoodTrace => (f.1, some f.2.toJSON))))
      ((pre ++ post).map (fun f : String × GoodTrace => f.2.summary)) := by
    unfold send_trace_list
    rw [hraw]
    exact List.perm_insertionSort _ _
  exact ⟨hperm.length_eq.trans (by rw [List.length_map]), hperm⟩

/-- Witness for C8: two well-formed traces and one corrupt file. -/
theorem c8_list_skips_corrupt_witness :
    (send_trace_list ([("trace_a.json", gA)].map (fun f => (f.1, some f.2.toJSON)) ++ [("trace_bad.json", none)]
        ++ [("trace_b.json", gB)].map (fun f => (f.1, some f.2.toJSON)))).length
      = ([("trace_a.json", gA)] ++ [("trace_b.json", gB)]).length
    ∧ List.Perm
        (send_trace_list ([("trace_a.json", gA)].map (fun f => (f.1, some f.2.toJSON)) ++ [("trace_bad.json", none)]
          ++ [("trace_b.json", gB)].map (fun f => (f.1, some f.2.toJSON))))
        (([("trace_a.json", gA)] ++ [("trace_b.json", gB)]).map (fun f => f.2.summary)) :=
  c8_list_skips_corrupt [("trace_a.json", gA)] [("trace_b.json", gB)] "trace_bad.json"
    (by decide) (by decide) (by decide)

/-- C10: after any sequence of public tracer operations from a fresh
tracer, the active-trace slot (when set) names a key of the in-memory trace
table; consequently `add_reasoning` and `end_trace` never hit their
unguarded dict lookups, and the finalized trace is still in the table after
`end_trace` clears the active slot. -/
theorem c10_tracer_state_invariant (ops : List Op) :
    TracerInv (run ops)
    ∧ (∀ text, ∃ st2, add_reasoning text (run ops) = (Except.ok (), st2))
    ∧ (∀ ts tid, (run ops).current_trace_id = some tid →
        ∃ st2, end_trace ts (run ops) = (Except.ok (some tid), st2)
          ∧ (lookupA tid st2.traces).isSome = true) :=
  have hinv : TracerInv (run ops) := foldl_inv ops initState (fun _ h => Option.noConfusion h)
  ⟨hinv, fun text => add_reasoning_no_keyError _ hinv text,
   fun ts tid hcti => end_trace_no_keyError _ hinv ts tid hcti⟩

/-- Witness for C10 discharging the active-trace hypothesis on a concrete
run. -/
theorem c10_tracer_state_invariant_witness :
    ∃ st2, end_trace "t9" (run [Op.startT "demo" env0]) = (Except.ok (some "trace_1_aa"), st2)
      ∧ (lookupA "trace_1_aa" st2.traces).isSome = true :=
  (c10_tracer_state_invariant [Op.startT "demo" env0]).2.2 "t9" "trace_1_aa" rfl
